import Mathlib

/-!
# Verification of the Pomodoro focus-timer session state machine

Shallow embedding of `src/web/src/pages/Pomodoro/index.tsx`.

The embedding covers:
* the preset data model (`TimerPreset`) and the built-in catalog
  (`getDefaultPresets`),
* preset resolution (`getCurrentPreset`) and duration lookup
  (`getTimerDuration`),
* the focus/break session state machine of the `FocusMode` component:
  `handleTimerComplete`, the running-tick interval body (`tick`),
  `start`, `stop`, `reset`, `skip` and `switchMode`,
* the picture-in-picture mirror tracking state: the state-push effect
  (`pipUpdateEffect`), the periodic closure poll (`pipPeriodicCheck`)
  and the message handler for mirror control requests (`handleMessage`),
* the repair applied to the long-break-interval number input at preset
  edit time (`repairLongBreakInterval`).

JavaScript numbers appearing in the timer logic are modelled as `Int`
(all values reached by the modelled operations are integers); the JS
remainder operator `%` is truncated remainder, modelled by `Int.tmod`.
React state updates inside one event-handler batch are modelled by the
net effect on the state record, applying queued updates in dispatch
order (a functional updater result applies at its dispatch position,
updates dispatched while it runs apply afterwards).
-/

namespace Pomodoro

/-- The three timer modes of the `FocusMode` component
(TS union `TimerMode = focus | short-break | long-break`). -/
inductive TimerMode where
  | focus
  | shortBreak
  | longBreak
deriving DecidableEq, Repr

/-- Preset categories (TS union on the `type` field of `TimerPreset`). -/
inductive PresetKind where
  | pomodoro
  | stopwatch
  | countdown
  | custom
deriving DecidableEq, Repr

/-- The `TimerPreset` record of the source (the TS field `type` is
named `kind` here because `type` is a Lean keyword).  Durations are in
minutes. -/
structure TimerPreset where
  id : String
  name : String
  description : String
  kind : PresetKind
  focusDuration : Int
  shortBreakDuration : Int
  longBreakDuration : Int
  longBreakInterval : Int
  autoStartBreaks : Bool
  autoStartFocus : Bool
  isDefault : Bool
deriving DecidableEq, Repr

/-- The shape of the parsed `pomodoro:timerSettings` store as read by
`getCurrentPreset`: the selected preset id and the preset list. -/
structure StoredSettings where
  selectedPreset : String
  presets : List TimerPreset
deriving DecidableEq, Repr

/-- The built-in preset catalog (`getDefaultPresets` in the source). -/
def getDefaultPresets : List TimerPreset :=
  [ { id := "pomodoro-classic", name := "Classic Pomodoro",
      description := "25 minutes focus, 5 minutes break, 15 minutes long break",
      kind := PresetKind.pomodoro,
      focusDuration := 25, shortBreakDuration := 5, longBreakDuration := 15,
      longBreakInterval := 4,
      autoStartBreaks := true, autoStartFocus := true, isDefault := true },
    { id := "pomodoro-short", name := "Short Pomodoro",
      description := "15 minutes focus, 3 minutes break, 10 minutes long break",
      kind := PresetKind.pomodoro,
      focusDuration := 15, shortBreakDuration := 3, longBreakDuration := 10,
      longBreakInterval := 4,
      autoStartBreaks := true, autoStartFocus := true, isDefault := true },
    { id := "52-17-rule", name := "52/17 Rule",
      description := "52 minutes focus, 17 minutes break",
      kind := PresetKind.pomodoro,
      focusDuration := 52, shortBreakDuration := 17, longBreakDuration := 17,
      longBreakInterval := 1,
      autoStartBreaks := true, autoStartFocus := true, isDefault := true },
    { id := "animedoro", name := "Animedoro",
      description := "Perfect for anime watching: 90 minutes focus, 15 minutes break",
      kind := PresetKind.pomodoro,
      focusDuration := 90, shortBreakDuration := 15, longBreakDuration := 30,
      longBreakInterval := 2,
      autoStartBreaks := true, autoStartFocus := true, isDefault := true },
    { id := "stopwatch", name := "Stopwatch",
      description := "Count up timer for flexible timing",
      kind := PresetKind.stopwatch,
      focusDuration := 0, shortBreakDuration := 5, longBreakDuration := 15,
      longBreakInterval := 4,
      autoStartBreaks := false, autoStartFocus := false, isDefault := true },
    { id := "countdown-60", name := "Countdown 60",
      description := "60 minutes countdown timer",
      kind := PresetKind.countdown,
      focusDuration := 60, shortBreakDuration := 5, longBreakDuration := 15,
      longBreakInterval := 1,
      autoStartBreaks := false, autoStartFocus := false, isDefault := true },
    { id := "countdown-30", name := "Countdown 30",
      description := "30 minutes countdown timer",
      kind := PresetKind.countdown,
      focusDuration := 30, shortBreakDuration := 5, longBreakDuration := 10,
      longBreakInterval := 1,
      autoStartBreaks := false, autoStartFocus := false, isDefault := true } ]

/-- `getCurrentPreset` of the source: read the stored settings (absent
or unparsable storage is `none`) and look up the selected preset in the
stored preset list; `preset || null` yields `none` when no preset
matches. -/
def getCurrentPreset (settings : Option StoredSettings) : Option TimerPreset :=
  match settings with
  | none => none
  | some st => st.presets.find? (fun p => p.id == st.selectedPreset)

/-- `getTimerDuration` of the source: seconds for a mode under the
currently resolved preset, falling back to the classic 25/5/15 minutes
when no preset resolves. -/
def getTimerDuration (settings : Option StoredSettings) (mode : TimerMode) : Int :=
  match getCurrentPreset settings with
  | none =>
    match mode with
    | TimerMode.focus => 25 * 60
    | TimerMode.shortBreak => 5 * 60
    | TimerMode.longBreak => 15 * 60
  | some preset =>
    match mode with
    | TimerMode.focus => preset.focusDuration * 60
    | TimerMode.shortBreak => preset.shortBreakDuration * 60
    | TimerMode.longBreak => preset.longBreakDuration * 60

/-- The session state of the `FocusMode` component: the `timerMode`,
`running`, `completedSessions` and `secondsLeft` React state cells. -/
structure SessionState where
  timerMode : TimerMode
  running : Bool
  completedSessions : Nat
  secondsLeft : Int
deriving DecidableEq, Repr

/-- `handleTimerComplete` of the source.  With no resolvable preset it
returns early, leaving the state unchanged.  On focus expiry it
increments the completed-session count, picks long break exactly when
the new count is divisible by the preset interval (JS `%`, truncated
remainder), resets the clock to the break duration and applies the
auto-start-breaks flag.  On break expiry it returns to focus, resets
the clock and applies the auto-start-focus flag. -/
def handleTimerComplete (settings : Option StoredSettings) (s : SessionState) :
    SessionState :=
  match getCurrentPreset settings with
  | none => s
  | some preset =>
    if s.timerMode = TimerMode.focus then
      let newCompletedSessions : Nat := s.completedSessions + 1
      let isLongBreak : Bool :=
        Int.tmod (newCompletedSessions : Int) preset.longBreakInterval == 0
      let breakMode : TimerMode :=
        if isLongBreak then TimerMode.longBreak else TimerMode.shortBreak
      { s with
        completedSessions := newCompletedSessions,
        timerMode := breakMode,
        secondsLeft := getTimerDuration settings breakMode,
        running := preset.autoStartBreaks }
    else
      { s with
        timerMode := TimerMode.focus,
        secondsLeft := getTimerDuration settings TimerMode.focus,
        running := preset.autoStartFocus }

/-- Net effect of the interval body firing with `secondsLeft <= 1`:
`setRunning(false)` and the updater result `0` are dispatched, then
`handleTimerComplete` runs and its updates apply afterwards. -/
def expireStep (settings : Option StoredSettings) (s : SessionState) :
    SessionState :=
  handleTimerComplete settings { s with running := false, secondsLeft := 0 }

/-- One firing of the 1-second interval installed while `running` is
true (the running-tick `useEffect`): a state with `secondsLeft <= 1`
expires, otherwise the clock decrements by one. -/
def tick (settings : Option StoredSettings) (s : SessionState) : SessionState :=
  if s.running then
    if s.secondsLeft ≤ 1 then expireStep settings s
    else { s with secondsLeft := s.secondsLeft - 1 }
  else s

/-- The `start()` action of the source. -/
def start (s : SessionState) : SessionState := { s with running := true }

/-- The `stop()` action of the source. -/
def stop (s : SessionState) : SessionState := { s with running := false }

/-- The `reset()` action of the source. -/
def reset (settings : Option StoredSettings) (s : SessionState) : SessionState :=
  { s with running := false, secondsLeft := getTimerDuration settings s.timerMode }

/-- The `skip()` action of the source: stop the clock, then run
`handleTimerComplete` from the current state. -/
def skip (settings : Option StoredSettings) (s : SessionState) : SessionState :=
  handleTimerComplete settings { s with running := false }

/-- The `switchMode(newMode)` action of the source. -/
def switchMode (settings : Option StoredSettings) (newMode : TimerMode)
    (s : SessionState) : SessionState :=
  { s with
    running := false,
    timerMode := newMode,
    secondsLeft := getTimerDuration settings newMode,
    completedSessions :=
      if newMode = TimerMode.focus then 0 else s.completedSessions }

/-- The data fields of a window message as inspected by the primary
surface handler: `event.data.type` and `event.data.action`. -/
structure PipMessage where
  mtype : String
  action : String
deriving DecidableEq, Repr

/-- `handleMessage` of the source (listener for messages from the
mirror window): only a `pip-control` message with action `start`,
`stop` or `reset` invokes the corresponding local operation; every
other type or action falls through the `switch` unchanged. -/
def handleMessage (settings : Option StoredSettings) (msg : PipMessage)
    (s : SessionState) : SessionState :=
  if msg.mtype == "pip-control" then
    if msg.action == "start" then start s
    else if msg.action == "stop" then stop s
    else if msg.action == "reset" then reset settings s
    else s
  else s

/-- The slice of a detached mirror window handle observed by the
primary surface: its `closed` flag. -/
structure PipWindowHandle where
  closed : Bool
deriving DecidableEq, Repr

/-- The mirror-tracking state of the primary surface: the
`pipWindowRef` ref cell and the `isPipActive` flag. -/
structure PipTrackingState where
  pipWindowRef : Option PipWindowHandle
  isPipActive : Bool
deriving DecidableEq, Repr

/-- A `pip-update` state-push message posted to the mirror window. -/
structure PipUpdateMessage where
  mtype : String
  seconds : Int
  running : Bool
  mode : TimerMode
deriving DecidableEq, Repr

/-- The state-push `useEffect` of the source, run when the timer state
changes: posts a `pip-update` message when the tracked window exists
and is not closed; when the tracked window is closed and the mirror is
still flagged active, it clears the flag and drops the handle instead
of sending. -/
def pipUpdateEffect (ps : PipTrackingState) (seconds : Int) (running : Bool)
    (mode : TimerMode) : Option PipUpdateMessage × PipTrackingState :=
  match ps.pipWindowRef with
  | some h =>
    if h.closed = false then
      (some { mtype := "pip-update", seconds := seconds, running := running,
              mode := mode }, ps)
    else if ps.isPipActive then
      (none, { pipWindowRef := none, isPipActive := false })
    else (none, ps)
  | none => (none, ps)

/-- One firing of the 1-second fallback poll of the source (installed
only while `isPipActive`): a tracked window that reports closed clears
the flag and drops the handle. -/
def pipPeriodicCheck (ps : PipTrackingState) : PipTrackingState :=
  if ps.isPipActive then
    match ps.pipWindowRef with
    | some h =>
      if h.closed then { pipWindowRef := none, isPipActive := false } else ps
    | none => ps
  else ps

/-- The repair applied by the Long Break After input `onChange`:
`parseInt(e.target.value) || 4` stores `4` when parsing fails (`NaN`)
or yields `0`, and stores the parsed value unchanged otherwise.  The
parse result is modelled as `Option Int` (`none` for `NaN`). -/
def repairLongBreakInterval (parsed : Option Int) : Int :=
  match parsed with
  | none => 4
  | some n => if n = 0 then 4 else n

/-- Stored settings selecting the built-in classic preset. -/
def classicStoredSettings : StoredSettings :=
  { selectedPreset := "pomodoro-classic", presets := getDefaultPresets }

/-- Stored settings selecting the built-in stopwatch preset. -/
def stopwatchStoredSettings : StoredSettings :=
  { selectedPreset := "stopwatch", presets := getDefaultPresets }

/-- Stored settings whose selected id matches no stored preset. -/
def missingStoredSettings : StoredSettings :=
  { selectedPreset := "no-such-preset", presets := getDefaultPresets }

/-- The classic built-in preset record. -/
def classicPreset : TimerPreset :=
  { id := "pomodoro-classic", name := "Classic Pomodoro",
    description := "25 minutes focus, 5 minutes break, 15 minutes long break",
    kind := PresetKind.pomodoro,
    focusDuration := 25, shortBreakDuration := 5, longBreakDuration := 15,
    longBreakInterval := 4,
    autoStartBreaks := true, autoStartFocus := true, isDefault := true }

/-- The stopwatch built-in preset record. -/
def stopwatchPreset : TimerPreset :=
  { id := "stopwatch", name := "Stopwatch",
    description := "Count up timer for flexible timing",
    kind := PresetKind.stopwatch,
    focusDuration := 0, shortBreakDuration := 5, longBreakDuration := 15,
    longBreakInterval := 4,
    autoStartBreaks := false, autoStartFocus := false, isDefault := true }

/-- Iterated expiry pairs with no manual action: `cycleState n` is the
state after `n` focus expiries each followed by the expiry of the break
it opened (so an initial focus state is back in focus mode). -/
def cycleState (settings : Option StoredSettings) (s0 : SessionState) :
    Nat → SessionState
  | 0 => s0
  | n + 1 => expireStep settings (expireStep settings (cycleState settings s0 n))

/-! ## Helper lemmas shared between claim theorems -/

/-- On break states (with a resolvable preset), expiry returns to
focus with the completed-session count unchanged. -/
lemma expireStep_of_break (settings : Option StoredSettings) (p : TimerPreset)
    (s : SessionState) (hp : getCurrentPreset settings = some p)
    (hm : s.timerMode ≠ TimerMode.focus) :
    expireStep settings s =
      { timerMode := TimerMode.focus, running := p.autoStartFocus,
        completedSessions := s.completedSessions,
        secondsLeft := getTimerDuration settings TimerMode.focus } := by
  cases s with
  | mk m r c sec =>
    simp only [expireStep, handleTimerComplete, hp]
    simp only [SessionState.timerMode] at hm ⊢
    rw [if_neg hm]

/-- On focus states (with a resolvable preset), expiry increments the
completed-session count, chooses the break mode by the truncated-mod
test, resets the clock and applies the auto-start-breaks flag. -/
lemma expireStep_of_focus (settings : Option StoredSettings) (p : TimerPreset)
    (s : SessionState) (hp : getCurrentPreset settings = some p)
    (hm : s.timerMode = TimerMode.focus) :
    expireStep settings s =
      { timerMode :=
          if Int.tmod ((s.completedSessions + 1 : Nat) : Int) p.longBreakInterval = 0
          then TimerMode.longBreak else TimerMode.shortBreak,
        running := p.autoStartBreaks,
        completedSessions := s.completedSessions + 1,
        secondsLeft :=
          getTimerDuration settings
            (if Int.tmod ((s.completedSessions + 1 : Nat) : Int) p.longBreakInterval = 0
             then TimerMode.longBreak else TimerMode.shortBreak) } := by
  cases s with
  | mk m r c sec =>
    simp only [SessionState.timerMode] at hm
    subst hm
    simp only [expireStep, handleTimerComplete, hp]
    simp [beq_iff_eq]

/-- `Int.tmod` on `Nat` casts is the `Nat` remainder. -/
lemma tmod_natCast (i k : Nat) :
    Int.tmod (i : Int) (k : Int) = ((i % k : Nat) : Int) := rfl

/-- For `1 ≤ i ≤ k`, the remainder `i tmod k` vanishes exactly at
`i = k`. -/
lemma tmod_eq_zero_iff (i k : Nat) (h1 : 1 ≤ i) (hik : i ≤ k) :
    Int.tmod (i : Int) (k : Int) = 0 ↔ i = k := by
  rw [tmod_natCast]
  rcases eq_or_lt_of_le hik with rfl | hlt
  · simp [Nat.mod_self]
  · rw [Nat.mod_eq_of_lt hlt]
    simp only [Int.natCast_eq_zero]
    omega

/-- With a resolvable preset, each focus-expiry/break-expiry pair keeps
the machine in focus mode and raises the completed-session count by
one. -/
lemma cycleState_invariant (settings : Option StoredSettings) (p : TimerPreset)
    (s0 : SessionState) (hp : getCurrentPreset settings = some p)
    (hm : s0.timerMode = TimerMode.focus) (hc : s0.completedSessions = 0) :
    ∀ n, (cycleState settings s0 n).timerMode = TimerMode.focus ∧
      (cycleState settings s0 n).completedSessions = n := by
  intro n
  induction n with
  | zero => exact ⟨hm, hc⟩
  | succ n ih =>
    obtain ⟨ihm, ihc⟩ := ih
    have h1 := expireStep_of_focus settings p (cycleState settings s0 n) hp ihm
    have h2 : (expireStep settings (cycleState settings s0 n)).timerMode ≠
        TimerMode.focus := by
      rw [h1]
      split <;> simp
    have h3 := expireStep_of_break settings p
      (expireStep settings (cycleState settings s0 n)) hp h2
    show (expireStep settings (expireStep settings (cycleState settings s0 n))).timerMode
        = TimerMode.focus ∧
      (expireStep settings (expireStep settings (cycleState settings s0 n))).completedSessions
        = n + 1
    rw [h3, h1]
    exact ⟨rfl, congrArg (· + 1) ihc⟩

/-! ## Claim theorems -/

/-- C1: with an active preset of interval `k ≥ 1`, starting from a
focus state with zero completed sessions and performing `k` consecutive
focus expiries (each break expiring in between, no manual switch), the
`i`-th focus expiry sets the completed count to `i`, picks long break
exactly at `i = k` and short break at `i < k`, resets the clock to the
new mode duration, and sets running to the auto-start-breaks flag. -/
theorem focus_cycle_break_policy
    (settings : Option StoredSettings) (p : TimerPreset) (k : Nat)
    (s0 : SessionState) (i : Nat)
    (hp : getCurrentPreset settings = some p)
    (hk : p.longBreakInterval = (k : Int))
    (_hk1 : 1 ≤ k)
    (hm : s0.timerMode = TimerMode.focus)
    (hc : s0.completedSessions = 0)
    (hi1 : 1 ≤ i) (hik : i ≤ k) :
    (expireStep settings (cycleState settings s0 (i - 1))).completedSessions = i ∧
    (expireStep settings (cycleState settings s0 (i - 1))).timerMode =
      (if i = k then TimerMode.longBreak else TimerMode.shortBreak) ∧
    (expireStep settings (cycleState settings s0 (i - 1))).secondsLeft =
      getTimerDuration settings
        (expireStep settings (cycleState settings s0 (i - 1))).timerMode ∧
    (expireStep settings (cycleState settings s0 (i - 1))).running =
      p.autoStartBreaks := by
  obtain ⟨hmode, hcomp⟩ :=
    cycleState_invariant settings p s0 hp hm hc (i - 1)
  have hstep := expireStep_of_focus settings p (cycleState settings s0 (i - 1)) hp hmode
  have hi : i - 1 + 1 = i := by omega
  rw [hstep, hcomp, hi]
  have hiff : Int.tmod (i : Int) p.longBreakInterval = 0 ↔ i = k := by
    rw [hk]
    exact tmod_eq_zero_iff i k hi1 hik
  have hcond : (if Int.tmod (i : Int) p.longBreakInterval = 0
      then TimerMode.longBreak else TimerMode.shortBreak) =
      (if i = k then TimerMode.longBreak else TimerMode.shortBreak) := by
    by_cases h : i = k
    · rw [if_pos (hiff.mpr h), if_pos h]
    · rw [if_neg (fun hz => h (hiff.mp hz)), if_neg h]
  exact ⟨rfl, hcond, rfl, rfl⟩

/-- C1 witness: the classic preset (interval 4), fourth focus expiry
lands in long break. -/
theorem focus_cycle_break_policy_witness :
    1 ≤ 4 ∧
    (expireStep (some classicStoredSettings)
      (cycleState (some classicStoredSettings)
        { timerMode := TimerMode.focus, running := false,
          completedSessions := 0, secondsLeft := 1500 } (4 - 1))).timerMode =
      (if 4 = 4 then TimerMode.longBreak else TimerMode.shortBreak) :=
  ⟨by decide,
    (focus_cycle_break_policy (some classicStoredSettings) classicPreset 4
      { timerMode := TimerMode.focus, running := false,
        completedSessions := 0, secondsLeft := 1500 } 4
      rfl rfl (by decide) rfl rfl (by decide) (by decide)).2.1⟩

/-- C2: the code has no stopwatch exemption — with the built-in
stopwatch preset (focus duration 0) selected, a started focus session
expires on the very first tick: the completed count increments and the
mode switches to short break.  This contradicts the preset's own
description (a count-up timer) and the UI, which renders duration 0 as
unbounded. -/
theorem stopwatch_focus_auto_expiry :
    getTimerDuration (some stopwatchStoredSettings) TimerMode.focus = 0 ∧
    tick (some stopwatchStoredSettings)
      { timerMode := TimerMode.focus, running := true,
        completedSessions := 0, secondsLeft := 0 } =
      { timerMode := TimerMode.shortBreak, running := false,
        completedSessions := 1, secondsLeft := 300 } :=
  ⟨rfl, rfl⟩

/-- C3 counterexample: when the stored selection matches no preset,
resolution yields `none` — not the classic preset — and the expiry
transition does not execute: the state keeps its mode and completed
count, only stopping and zeroing the clock. -/
theorem getCurrentPreset_missing_not_classic :
    getCurrentPreset (some missingStoredSettings) = none ∧
    expireStep (some missingStoredSettings)
      { timerMode := TimerMode.focus, running := true,
        completedSessions := 2, secondsLeft := 5 } =
      { timerMode := TimerMode.focus, running := false,
        completedSessions := 2, secondsLeft := 0 } :=
  ⟨rfl, rfl⟩

/-- C3 amended: resolution returns a preset only when its id matches
the stored selection; when no preset resolves, duration lookup degrades
to the classic 25/5/15-minute durations, but `handleTimerComplete`
returns the state unchanged, so expiry only stops and zeroes the clock
and `skip` only stops it. -/
theorem preset_resolution_fallback (settings : Option StoredSettings)
    (s : SessionState) :
    (∀ st p, settings = some st → getCurrentPreset settings = some p →
      p.id = st.selectedPreset ∧ p ∈ st.presets) ∧
    (getCurrentPreset settings = none →
      getTimerDuration settings TimerMode.focus = 1500 ∧
      getTimerDuration settings TimerMode.shortBreak = 300 ∧
      getTimerDuration settings TimerMode.longBreak = 900 ∧
      handleTimerComplete settings s = s ∧
      expireStep settings s = { s with running := false, secondsLeft := 0 } ∧
      skip settings s = { s with running := false }) := by
  constructor
  · intro st p hst hp
    subst hst
    simp only [getCurrentPreset] at hp
    refine ⟨?_, List.mem_of_find?_eq_some hp⟩
    have := List.find?_some hp
    exact beq_iff_eq.mp this
  · intro h
    refine ⟨?_, ?_, ?_, ?_, ?_, ?_⟩ <;>
      simp [getTimerDuration, handleTimerComplete, expireStep, skip, h]

/-- C3 witness: the fallback branch evaluated at a concrete state with
an unmatched selection. -/
theorem preset_resolution_fallback_witness :
    getTimerDuration (some missingStoredSettings) TimerMode.focus = 1500 ∧
    getTimerDuration (some missingStoredSettings) TimerMode.shortBreak = 300 ∧
    getTimerDuration (some missingStoredSettings) TimerMode.longBreak = 900 ∧
    handleTimerComplete (some missingStoredSettings)
      { timerMode := TimerMode.shortBreak, running := true,
        completedSessions := 3, secondsLeft := 7 } =
      { timerMode := TimerMode.shortBreak, running := true,
        completedSessions := 3, secondsLeft := 7 } ∧
    expireStep (some missingStoredSettings)
      { timerMode := TimerMode.shortBreak, running := true,
        completedSessions := 3, secondsLeft := 7 } =
      { timerMode := TimerMode.shortBreak, running := false,
        completedSessions := 3, secondsLeft := 0 } ∧
    skip (some missingStoredSettings)
      { timerMode := TimerMode.shortBreak, running := true,
        completedSessions := 3, secondsLeft := 7 } =
      { timerMode := TimerMode.shortBreak, running := false,
        completedSessions := 3, secondsLeft := 7 } :=
  (preset_resolution_fallback (some missingStoredSettings)
    { timerMode := TimerMode.shortBreak, running := true,
      completedSessions := 3, secondsLeft := 7 }).2 rfl

/-- C4: with a resolvable preset, `skip` from any session state yields
exactly the state produced by the clock reaching zero and the expiry
transition firing from that state. -/
theorem skip_eq_expireStep (settings : Option StoredSettings) (p : TimerPreset)
    (s : SessionState) (hp : getCurrentPreset settings = some p) :
    skip settings s = expireStep settings s := by
  cases s with
  | mk m r c sec =>
    cases m <;> simp [skip, expireStep, handleTimerComplete, hp]

/-- C4 witness: `skip` and forced expiry agree on a concrete running
focus state under the classic preset. -/
theorem skip_eq_expireStep_witness :
    skip (some classicStoredSettings)
      { timerMode := TimerMode.focus, running := true,
        completedSessions := 1, secondsLeft := 777 } =
    expireStep (some classicStoredSettings)
      { timerMode := TimerMode.focus, running := true,
        completedSessions := 1, secondsLeft := 777 } :=
  skip_eq_expireStep (some classicStoredSettings) classicPreset
    { timerMode := TimerMode.focus, running := true,
      completedSessions := 1, secondsLeft := 777 } rfl

/-- C5: with a resolvable preset, expiry from a break state returns to
focus with the focus duration on the clock, running set to the
auto-start-focus flag, and the completed count untouched. -/
theorem break_expiry_to_focus (settings : Option StoredSettings) (p : TimerPreset)
    (s : SessionState) (hp : getCurrentPreset settings = some p)
    (hm : s.timerMode = TimerMode.shortBreak ∨ s.timerMode = TimerMode.longBreak) :
    expireStep settings s =
      { timerMode := TimerMode.focus, running := p.autoStartFocus,
        completedSessions := s.completedSessions,
        secondsLeft := getTimerDuration settings TimerMode.focus } := by
  apply expireStep_of_break settings p s hp
  rcases hm with hm | hm <;> rw [hm] <;> simp

/-- C5 witness: a concrete short-break expiry under the classic
preset. -/
theorem break_expiry_to_focus_witness :
    expireStep (some classicStoredSettings)
      { timerMode := TimerMode.shortBreak, running := true,
        completedSessions := 1, secondsLeft := 0 } =
      { timerMode := TimerMode.focus, running := classicPreset.autoStartFocus,
        completedSessions := 1,
        secondsLeft := getTimerDuration (some classicStoredSettings) TimerMode.focus } :=
  break_expiry_to_focus (some classicStoredSettings) classicPreset
    { timerMode := TimerMode.shortBreak, running := true,
      completedSessions := 1, secondsLeft := 0 } rfl (Or.inl rfl)

/-- C6: `reset` stops the clock and restores the current mode's full
duration, leaving mode and completed count unchanged. -/
theorem reset_frame (settings : Option StoredSettings) (s : SessionState) :
    (reset settings s).running = false ∧
    (reset settings s).secondsLeft = getTimerDuration settings s.timerMode ∧
    (reset settings s).timerMode = s.timerMode ∧
    (reset settings s).completedSessions = s.completedSessions :=
  ⟨rfl, rfl, rfl, rfl⟩

/-- C7: `switchMode` stops the clock, installs the new mode and its
duration, and zeroes the completed count exactly when the new mode is
focus. -/
theorem switchMode_behavior (settings : Option StoredSettings)
    (newMode : TimerMode) (s : SessionState) :
    (switchMode settings newMode s).running = false ∧
    (switchMode settings newMode s).timerMode = newMode ∧
    (switchMode settings newMode s).secondsLeft =
      getTimerDuration settings newMode ∧
    (switchMode settings newMode s).completedSessions =
      (if newMode = TimerMode.focus then 0 else s.completedSessions) :=
  ⟨rfl, rfl, rfl, rfl⟩

/-- C8 counterexample: the edit boundary stores a negative parsed
long-break-interval unchanged — the repair only replaces `0` and
unparsable input — so a preset with interval `-2 < 1` can be saved. -/
theorem repairLongBreakInterval_negative_stored :
    repairLongBreakInterval (some (-2)) = -2 ∧
    ¬ 1 ≤ repairLongBreakInterval (some (-2)) := by decide

/-- C8 amended: an unparsable or zero input is repaired to 4, and any
non-negative parsed value yields a stored interval of at least 1; a
negative parsed value, however, is stored unchanged. -/
theorem repairLongBreakInterval_nonneg :
    repairLongBreakInterval none = 4 ∧
    repairLongBreakInterval (some 0) = 4 ∧
    repairLongBreakInterval (some (-2)) = -2 ∧
    ∀ n : Int, 0 ≤ n → 1 ≤ repairLongBreakInterval (some n) := by
  refine ⟨rfl, rfl, rfl, ?_⟩
  intro n hn
  simp only [repairLongBreakInterval]
  split
  · decide
  · omega

/-- C8 amended witness: a concrete non-negative input. -/
theorem repairLongBreakInterval_nonneg_witness :
    (0 : Int) ≤ 7 ∧ 1 ≤ repairLongBreakInterval (some 7) :=
  ⟨by decide, repairLongBreakInterval_nonneg.2.2.2 7 (by decide)⟩

/-- C9: a message changes the primary session state only when it is a
`pip-control` message whose action is `start`, `stop` or `reset`, in
which case exactly the corresponding local operation is applied; any
other type or action — including skip and switch-mode requests — leaves
the state unchanged. -/
theorem handleMessage_control_only (settings : Option StoredSettings)
    (msg : PipMessage) (s : SessionState) :
    handleMessage settings msg s =
      (if msg.mtype = "pip-control" then
        if msg.action = "start" then start s
        else if msg.action = "stop" then stop s
        else if msg.action = "reset" then reset settings s
        else s
      else s) ∧
    handleMessage settings { mtype := "pip-control", action := "skip" } s = s ∧
    handleMessage settings { mtype := "pip-control", action := "switch-mode" } s = s ∧
    handleMessage settings { mtype := "state-push", action := "start" } s = s := by
  refine ⟨?_, rfl, rfl, rfl⟩
  simp only [handleMessage, beq_iff_eq]

/-- C10: once the tracked mirror window reports closed, the state-push
effect posts no message (and, if the active flag is still set, clears
it); one firing of the 1-second fallback poll leaves the mirror-active
flag false; and pushes from the post-poll state still post nothing, so
the closed condition is terminal. -/
theorem pip_closed_no_further_send (ps : PipTrackingState) (h : PipWindowHandle)
    (seconds : Int) (running : Bool) (mode : TimerMode)
    (href : ps.pipWindowRef = some h) (hclosed : h.closed = true) :
    (pipUpdateEffect ps seconds running mode).1 = none ∧
    (pipPeriodicCheck ps).isPipActive = false ∧
    (∀ s2 r2 m2, (pipUpdateEffect (pipPeriodicCheck ps) s2 r2 m2).1 = none) := by
  cases ps with
  | mk ref active =>
    simp only [PipTrackingState.pipWindowRef] at href
    subst href
    cases h with
    | mk closed =>
      simp only [PipWindowHandle.closed] at hclosed
      subst hclosed
      cases active <;>
        simp [pipUpdateEffect, pipPeriodicCheck]

/-- C10 witness: a concrete closed handle with the active flag set. -/
theorem pip_closed_no_further_send_witness :
    (pipUpdateEffect
      { pipWindowRef := some { closed := true }, isPipActive := true }
      42 true TimerMode.focus).1 = none ∧
    (pipPeriodicCheck
      { pipWindowRef := some { closed := true }, isPipActive := true }).isPipActive
      = false :=
  ⟨(pip_closed_no_further_send
      { pipWindowRef := some { closed := true }, isPipActive := true }
      { closed := true } 42 true TimerMode.focus rfl rfl).1,
    (pip_closed_no_further_send
      { pipWindowRef := some { closed := true }, isPipActive := true }
      { closed := true } 42 true TimerMode.focus rfl rfl).2.1⟩

end Pomodoro

